import Mathlib

/-!
Shallow embedding of the ABM (account-based marketing) campaign simulator in
src/src/agents/abm_agent.py, and verification of its specification.

Modelling conventions:
* Python floats are modelled as rationals (all constants in the source are
  short decimals, and every claim is about exact decimal arithmetic).
* The JSON configuration is modelled by the inductive type JVal; a loaded
  configuration is an association list of top-level keys to JSON values,
  mirroring a Python dict.
* Exceptions are modelled with Option / Except: a function that can raise
  returns none / .error instead.
* File system access in _load_config is modelled by an input of type
  Option (Option Config): none is a missing file, some none is a file whose
  contents is not parsable as a JSON configuration mapping, and
  some (some cfg) is a file parsing to the mapping cfg.
-/

namespace ABM

/-- JSON values, as produced by json.load. -/
inductive JVal where
  | str : String → JVal
  | num : ℚ → JVal
  | bool : Bool → JVal
  | null : JVal
  | arr : List JVal → JVal
  | obj : List (String × JVal) → JVal
deriving Repr

/-- A loaded configuration: the top-level JSON object as an association list,
mirroring the Python dict returned by json.load. -/
def Config : Type := List (String × JVal)

/-- Errors of _load_config: file absent (FileNotFoundError), contents not
parsable as a JSON mapping (json.JSONDecodeError), or a missing required
top-level key (the ValueError raised by the validation loop). The spec calls
all three collectively a ConfigurationError. -/
inductive ConfigError where
  | fileNotFound : ConfigError
  | jsonDecodeError : ConfigError
  | missingKey : String → ConfigError
deriving Repr, DecidableEq

/-- The required top-level keys checked by _load_config (source line 68). -/
def requiredKeys : List String := ["target_market", "ai_models", "channels"]

/-- First required key absent from the configuration, in the order the
validation loop of _load_config checks them; none when all are present. -/
def firstMissingKey (cfg : Config) : Option String :=
  requiredKeys.find? (fun k => (cfg.lookup k).isNone)

/-- ABMAgentWrapper._load_config (source lines 61-76): open and parse the
file, then check the three required keys; raise on the first failure. -/
def loadConfig (file : Option (Option Config)) : Except ConfigError Config :=
  match file with
  | none => .error .fileNotFound
  | some none => .error .jsonDecodeError
  | some (some cfg) =>
    match firstMissingKey cfg with
    | some k => .error (.missingKey k)
    | none => .ok cfg

/-- Errors possible while constructing ABMAgentWrapper: a configuration load
failure, or a KeyError / TypeError from the nested dictionary access
config[target_market][industry] in AccountIntelligenceAgent.__init__
(source line 194). -/
inductive InitError where
  | configError : ConfigError → InitError
  | keyError : InitError
  | typeError : InitError
deriving Repr, DecidableEq

/-- AccountIntelligenceAgent.__init__ (source lines 192-194): evaluates
config[target_market][industry] and stores it as industry_context. A missing
key raises KeyError; indexing a non-object with a string raises TypeError. -/
def accountIntelligenceInit (cfg : Config) : Except InitError JVal :=
  match cfg.lookup "target_market" with
  | none => .error .keyError
  | some (JVal.obj tm) =>
    match tm.lookup "industry" with
    | none => .error .keyError
    | some v => .ok v
  | some _ => .error .typeError

/-- ABMAgentWrapper.__init__ (source lines 52-59): load the configuration,
then initialize the agents. Among the three agent constructors only
AccountIntelligenceAgent (constructed first) can raise; the other two only
store the configuration. The wrapper state is the configuration together
with the industry_context of the intelligence agent. -/
def wrapperInit (file : Option (Option Config)) : Except InitError (Config × JVal) :=
  match loadConfig file with
  | .error ce => .error (.configError ce)
  | .ok cfg =>
    match accountIntelligenceInit cfg with
    | .error ie => .error ie
    | .ok ictx => .ok (cfg, ictx)

/-- AccountProfile (source lines 21-33). decision_makers entries are
(name, role, influence) triples; competitive_context is
(current_provider, switching_probability). -/
structure AccountProfile where
  company_id : String
  company_name : String
  industry : String
  revenue : String
  employee_count : Nat
  financial_health_score : ℚ
  intent_score : ℚ
  decision_makers : List (String × String × ℚ)
  key_pain_points : List String
  competitive_context : String × ℚ
deriving Repr

/-- The intent dictionary returned by IntentDetectionAgent.analyze_intent
(source lines 228-234). -/
structure IntentRecord where
  intent_score : ℚ
  urgency_level : String
  predicted_timeframe : String
  key_signals : List String
  optimal_timing : String
deriving Repr

/-- The content dictionary returned by ContentGenerationAgent.create_content
(source lines 246-252). personalization_score is an Option because
_calculate_engagement_score reads it with dict.get and default 0. -/
structure ContentRec where
  email_subject : String
  email_body : String
  linkedin_message : String
  personalization_score : Option ℚ
  compliance_approved : Bool
deriving Repr

/-- CampaignResults (source lines 35-42). performance_by_channel maps a
channel name to (engagement_rate, conversion_rate). -/
structure CampaignResults where
  total_accounts : Nat
  total_touchpoints : Nat
  engagement_rate : ℚ
  predicted_pipeline : ℚ
  performance_by_channel : List (String × ℚ × ℚ)
deriving Repr

/-- Python str.title applied to one space-separated word: first character
upper-cased, the rest lower-cased. -/
def pyTitleWord (w : String) : String :=
  match w.data with
  | [] => ""
  | c :: cs => String.mk (c.toUpper :: cs.map Char.toLower)

/-- account_id.replace(underscore, space).title() from enrich_account
(source line 204). -/
def displayName (account_id : String) : String :=
  String.intercalate " " (((account_id.replace "_" " ").splitOn " ").map pyTitleWord)

/-- AccountIntelligenceAgent.enrich_account (source lines 196-216): mock
enrichment, every numeric and categorical field a constant; industry comes
from the agent state (the claims all use a string industry_context, the
shape the documented configuration provides). -/
def enrich_account (industry_context : String) (account_id : String) : AccountProfile where
  company_id := account_id
  company_name := displayName account_id
  industry := industry_context
  revenue := "£5M-£25M"
  employee_count := 150
  financial_health_score := 78/100
  intent_score := 65/100
  decision_makers :=
    [("Sarah Johnson", "CEO", 9/10), ("Mark Thompson", "CFO", 8/10)]
  key_pain_points := ["expansion_capital", "cash_flow_optimization"]
  competitive_context := ("Traditional Bank", 4/10)

/-- IntentDetectionAgent.analyze_intent (source lines 224-234): echoes the
profile intent score beside constant descriptive fields. -/
def analyze_intent (account : AccountProfile) : IntentRecord where
  intent_score := account.intent_score
  urgency_level := "medium"
  predicted_timeframe := "3-6 months"
  key_signals := ["website_visits", "content_downloads"]
  optimal_timing := "Tuesday 10:00 AM"

/-- ContentGenerationAgent.create_content (source lines 242-252):
string-interpolated templates, constant personalization score and compliance
flag. The intent argument is accepted and unused, as in the source. -/
def create_content (account : AccountProfile) (_intent : IntentRecord) : ContentRec where
  email_subject :=
    "Scaling " ++ account.industry ++ " operations: Capital solutions for "
      ++ account.company_name
  email_body :=
    "Hi {name},\n\nI" ++ "ve been following " ++ account.company_name
      ++ "s growth in the " ++ account.industry ++ " space..."
  linkedin_message :=
    "Impressive growth at " ++ account.company_name
      ++ "! Would love to discuss capital solutions..."
  personalization_score := some (85/100)
  compliance_approved := true

/-- ABMAgentWrapper._calculate_engagement_score (source lines 147-163):
base 0.15, three conditional boosts, capped at 0.65. -/
def calculate_engagement_score (account : AccountProfile) (content : ContentRec) : ℚ :=
  let base0 : ℚ := 15/100
  let base1 := if account.financial_health_score > 7/10 then base0 + 10/100 else base0
  let base2 := if account.intent_score > 6/10 then base1 + 15/100 else base1
  let base3 :=
    if (content.personalization_score.getD 0) > 8/10 then base2 + 12/100 else base2
  min base3 (65/100)

/-- The revenue_multiplier dictionary of _estimate_pipeline_value
(source lines 168-172). -/
def revenueTable : List (String × ℚ) :=
  [("£1M-£5M", 50000), ("£5M-£25M", 200000), ("£25M-£50M", 500000)]

/-- revenue_multiplier.get(account.revenue, 100000) (source line 174). -/
def revenueMultiplier (revenue : String) : ℚ :=
  (revenueTable.lookup revenue).getD 100000

/-- ABMAgentWrapper._estimate_pipeline_value (source lines 165-179). -/
def estimate_pipeline_value (account : AccountProfile) (engagement : ℚ) : ℚ :=
  revenueMultiplier account.revenue * engagement * account.intent_score

/-- ABMAgentWrapper._calculate_channel_performance (source lines 181-187):
a constant table, channel name to (engagement_rate, conversion_rate). -/
def channelPerformance : List (String × ℚ × ℚ) :=
  [("email", (42/100, 8/100)), ("linkedin", (28/100, 12/100)),
   ("direct_mail", (15/100, 6/100))]

/-- len(config[channels][primary]) from source line 119, the only part of
the per-account loop body other than enrichment that reads fallible data:
none models the KeyError / TypeError when the channels entry does not hold
an object with a primary list. -/
def channelsPrimaryCount (cfg : Config) : Option Nat :=
  match cfg.lookup "channels" with
  | some (JVal.obj ch) =>
    match ch.lookup "primary" with
    | some (JVal.arr xs) => some xs.length
    | _ => none
  | _ => none

/-- One iteration of the run_campaign loop body (source lines 106-127) for a
single account id, parameterized by the enrichment function (none models an
exception raised during enrichment, landing in the except branch). Returns
the (touchpoints, engagement_score, pipeline_value) contribution, or none
when the iteration raised and was skipped. -/
def perAccount (enrich : String → Option AccountProfile) (cfg : Config)
    (account_id : String) : Option (Nat × ℚ × ℚ) :=
  match enrich account_id with
  | none => none
  | some account_profile =>
    let intent_data := analyze_intent account_profile
    let content := create_content account_profile intent_data
    match channelsPrimaryCount cfg with
    | none => none
    | some nch =>
      let touchpoints := nch * 3
      let engagement_score := calculate_engagement_score account_profile content
      let pipeline_value := estimate_pipeline_value account_profile engagement_score
      some (touchpoints, engagement_score, pipeline_value)

/-- One step of the accumulation in run_campaign: a failed account leaves the
accumulators (total_touchpoints, engagement_scores, predicted_pipeline)
unchanged; a processed one adds its contribution (source lines 123-131). -/
def stepAccount (enrich : String → Option AccountProfile) (cfg : Config)
    (acc : Nat × List ℚ × ℚ) (account_id : String) : Nat × List ℚ × ℚ :=
  match perAccount enrich cfg account_id with
  | none => acc
  | some (tp, es, pv) => (acc.1 + tp, acc.2.1 ++ [es], acc.2.2 + pv)

/-- ABMAgentWrapper.run_campaign (source lines 89-145), parameterized by the
enrichment function so that enrichment failure can be stated. The loop is a
left fold of stepAccount; afterwards the mean engagement guards against an
empty score list, and the results record is assembled. -/
def run_campaign (enrich : String → Option AccountProfile) (cfg : Config)
    (target_accounts : List String) : CampaignResults :=
  let acc := target_accounts.foldl (stepAccount enrich cfg) (0, [], 0)
  let avg_engagement : ℚ :=
    if acc.2.1.isEmpty then 0 else acc.2.1.sum / (acc.2.1.length : ℚ)
  ⟨target_accounts.length, acc.1, avg_engagement, acc.2.2, channelPerformance⟩

/-- The enrichment function of the actual AccountIntelligenceAgent, which
never raises: every account id enriches successfully. -/
def realEnrich (industry_context : String) : String → Option AccountProfile :=
  fun account_id => some (enrich_account industry_context account_id)

end ABM

namespace ABM

/-! Concrete demonstration values used by witnesses. -/

/-- A well-formed configuration with all required keys, an industry, and
three primary channels, matching the documented config shape. -/
def cfgDemo : Config :=
  [("target_market", JVal.obj [("industry", JVal.str "manufacturing")]),
   ("ai_models", JVal.obj []),
   ("channels", JVal.obj [("primary",
      JVal.arr [JVal.str "email", JVal.str "linkedin", JVal.str "direct_mail"])])]

/-- A configuration passing the _load_config validation whose target_market
object lacks the industry key. -/
def cfgNoIndustry : Config :=
  [("target_market", JVal.obj []), ("ai_models", JVal.obj []),
   ("channels", JVal.obj [])]

/-- An enrichment function that raises on every account. -/
def failEnrich : String → Option AccountProfile := fun _ => none

/-! Helper lemmas. -/

/-- Every entry of the revenue table, and the default, is positive. -/
lemma revenueMultiplier_pos (r : String) : 0 < revenueMultiplier r := by
  unfold revenueMultiplier revenueTable
  simp only [List.lookup]
  cases h1 : r == "£1M-£5M"
  · cases h2 : r == "£5M-£25M"
    · cases h3 : r == "£25M-£50M"
      · simp only [h1, h2, h3, Option.getD_none]; norm_num
      · simp only [h1, h2, h3, Option.getD_some]; norm_num
    · simp only [h1, h2, Option.getD_some]; norm_num
  · simp only [h1, Option.getD_some]; norm_num

/-- When every required key is present the validation loop finds nothing. -/
lemma firstMissingKey_eq_none (cfg : Config)
    (h : ∀ k ∈ requiredKeys, (cfg.lookup k).isSome) :
    firstMissingKey cfg = none := by
  unfold firstMissingKey
  rw [List.find?_eq_none]
  intro k hk
  simpa using h k hk

/-- A configuration with every required key loads successfully. -/
lemma loadConfig_ok_of_keys (cfg : Config)
    (h : ∀ k ∈ requiredKeys, (cfg.lookup k).isSome) :
    loadConfig (some (some cfg)) = .ok cfg := by
  simp [loadConfig, firstMissingKey_eq_none cfg h]

/-- The campaign loop accumulators after a fold: each accumulator grows by
the contributions of exactly the successfully processed accounts, in order. -/
lemma foldl_stepAccount (enrich : String → Option AccountProfile) (cfg : Config) :
    ∀ (l : List String) (t : Nat) (s : List ℚ) (p : ℚ),
      l.foldl (stepAccount enrich cfg) (t, s, p) =
        (t + ((l.filterMap (perAccount enrich cfg)).map (fun o => o.1)).sum,
         s ++ (l.filterMap (perAccount enrich cfg)).map (fun o => o.2.1),
         p + ((l.filterMap (perAccount enrich cfg)).map (fun o => o.2.2)).sum) := by
  intro l
  induction l with
  | nil => intro t s p; simp
  | cons hd tl ih =>
    intro t s p
    rw [List.foldl_cons]
    cases h : perAccount enrich cfg hd with
    | none =>
      rw [List.filterMap_cons_none h]
      simp only [stepAccount, h]
      exact ih t s p
    | some o =>
      obtain ⟨tp, es, pv⟩ := o
      rw [List.filterMap_cons_some h]
      simp only [stepAccount, h]
      rw [ih]
      simp [add_assoc]

/-- With a well-formed channels entry, an account iteration succeeds exactly
when its enrichment does: every later part of the loop body is infallible. -/
lemma perAccount_isSome (enrich : String → Option AccountProfile) (cfg : Config)
    (n : Nat) (hch : channelsPrimaryCount cfg = some n) (account_id : String) :
    (perAccount enrich cfg account_id).isSome = (enrich account_id).isSome := by
  unfold perAccount
  cases h : enrich account_id with
  | none => rfl
  | some prof => simp [hch]

/-- Filtering by success before a filterMap changes nothing. -/
lemma filterMap_filter_eq {α β : Type} (f : α → Option β) (p : α → Bool)
    (h : ∀ a, (f a).isSome = p a) (l : List α) :
    (l.filter p).filterMap f = l.filterMap f := by
  induction l with
  | nil => rfl
  | cons hd tl ih =>
    rw [List.filter_cons]
    cases hp : p hd
    · have hnone : f hd = none := by
        have := h hd
        rw [hp] at this
        exact Option.not_isSome_iff_eq_none.mp (by simp [this])
      simp only [Bool.false_eq_true, if_false]
      rw [List.filterMap_cons_none hnone, ih]
    · have hsome : (f hd).isSome := by rw [h hd, hp]
      obtain ⟨b, hb⟩ := Option.isSome_iff_exists.mp hsome
      simp only [if_true]
      rw [List.filterMap_cons_some hb, List.filterMap_cons_some hb, ih]

/-- Closed form of run_campaign: totals over the filterMap of perAccount. -/
lemma run_campaign_eq (enrich : String → Option AccountProfile) (cfg : Config)
    (target_accounts : List String) :
    run_campaign enrich cfg target_accounts =
      ⟨target_accounts.length,
       ((target_accounts.filterMap (perAccount enrich cfg)).map (fun o => o.1)).sum,
       (if (target_accounts.filterMap (perAccount enrich cfg)).isEmpty then 0
        else ((target_accounts.filterMap (perAccount enrich cfg)).map (fun o => o.2.1)).sum /
          ((target_accounts.filterMap (perAccount enrich cfg)).length : ℚ)),
       ((target_accounts.filterMap (perAccount enrich cfg)).map (fun o => o.2.2)).sum,
       channelPerformance⟩ := by
  unfold run_campaign
  rw [foldl_stepAccount]
  simp [List.isEmpty_iff, List.length_map]

/-- C1: for every AccountProfile and content record, the engagement score of
_calculate_engagement_score equals 0.15, plus 0.10 when the financial-health
score exceeds 0.7, plus 0.15 when the intent score exceeds 0.6, plus 0.12
when the personalization score exceeds 0.8, clamped to at most 0.65. -/
theorem C1_engagement_score_formula (a : AccountProfile) (c : ContentRec) :
    calculate_engagement_score a c =
      min ((15 : ℚ)/100
        + (if a.financial_health_score > 7/10 then (10 : ℚ)/100 else 0)
        + (if a.intent_score > 6/10 then (15 : ℚ)/100 else 0)
        + (if (c.personalization_score.getD 0) > 8/10 then (12 : ℚ)/100 else 0))
        ((65 : ℚ)/100) := by
  simp only [calculate_engagement_score]
  split_ifs <;> norm_num

/-- C3: for every input, the engagement score of _calculate_engagement_score
lies in the closed interval from 0.15 to 0.65. -/
theorem C3_engagement_score_range (a : AccountProfile) (c : ContentRec) :
    (15 : ℚ)/100 ≤ calculate_engagement_score a c
    ∧ calculate_engagement_score a c ≤ 65/100 := by
  constructor
  · simp only [calculate_engagement_score]
    refine le_min ?_ (by norm_num)
    split_ifs <;> norm_num
  · exact min_le_right _ _

/-- C2: for every AccountProfile and engagement value, the pipeline value of
_estimate_pipeline_value is the base deal size of the revenue bracket times
engagement times intent score, with the three fixed brackets mapping to
50000, 200000 and 500000, every other bracket to 100000, and the result is
non-negative whenever engagement and intent score are. -/
theorem C2_pipeline_value_formula (a : AccountProfile) (e : ℚ) :
    estimate_pipeline_value a e = revenueMultiplier a.revenue * e * a.intent_score
    ∧ revenueMultiplier "£1M-£5M" = 50000
    ∧ revenueMultiplier "£5M-£25M" = 200000
    ∧ revenueMultiplier "£25M-£50M" = 500000
    ∧ (∀ r : String, r ≠ "£1M-£5M" → r ≠ "£5M-£25M" → r ≠ "£25M-£50M" →
        revenueMultiplier r = 100000)
    ∧ (0 ≤ e → 0 ≤ a.intent_score → 0 ≤ estimate_pipeline_value a e) := by
  refine ⟨rfl, rfl, rfl, rfl, ?_, ?_⟩
  · intro r h1 h2 h3
    have e1 : (r == "£1M-£5M") = false := beq_eq_false_iff_ne.mpr h1
    have e2 : (r == "£5M-£25M") = false := beq_eq_false_iff_ne.mpr h2
    have e3 : (r == "£25M-£50M") = false := beq_eq_false_iff_ne.mpr h3
    simp [revenueMultiplier, revenueTable, List.lookup, e1, e2, e3]
  · intro he hi
    exact mul_nonneg (mul_nonneg (revenueMultiplier_pos a.revenue).le he) hi

/-- Witness for C2: the default bracket and non-negativity at a concrete
profile and engagement value. -/
theorem C2_pipeline_value_formula_witness :
    revenueMultiplier "unknown" = 100000
    ∧ (0 : ℚ) ≤ estimate_pipeline_value (enrich_account "manufacturing" "acme_mfg") (1/2) := by
  have h := C2_pipeline_value_formula (enrich_account "manufacturing" "acme_mfg") (1/2)
  exact ⟨h.2.2.2.2.1 "unknown" (by decide) (by decide) (by decide),
    h.2.2.2.2.2 (by norm_num) (by norm_num [enrich_account])⟩

/-- C5: configuration loading fails exactly when the file is absent, not
parsable, or missing a required top-level key, and otherwise returns the
parsed configuration mapping. -/
theorem C5_load_config_spec (file : Option (Option Config)) :
    ((∃ err, loadConfig file = .error err) ↔
      (file = none ∨ file = some none ∨
        ∃ cfg, file = some (some cfg) ∧ ∃ k ∈ requiredKeys, (cfg.lookup k).isNone))
    ∧ (∀ cfg : Config, file = some (some cfg) →
        (∀ k ∈ requiredKeys, (cfg.lookup k).isSome) → loadConfig file = .ok cfg) := by
  constructor
  · constructor
    · rintro ⟨err, herr⟩
      match file with
      | none => exact Or.inl rfl
      | some none => exact Or.inr (Or.inl rfl)
      | some (some cfg) =>
        refine Or.inr (Or.inr ⟨cfg, rfl, ?_⟩)
        cases hf : firstMissingKey cfg with
        | none => simp [loadConfig, hf] at herr
        | some k =>
          have hf2 : requiredKeys.find? (fun k => (cfg.lookup k).isNone) = some k := hf
          have hp := List.find?_some hf2
          simp only [] at hp
          exact ⟨k, List.mem_of_find?_eq_some hf2, hp⟩
    · intro h
      rcases h with rfl | rfl | ⟨cfg, rfl, k, hk, hnone⟩
      · exact ⟨.fileNotFound, rfl⟩
      · exact ⟨.jsonDecodeError, rfl⟩
      · cases hf : firstMissingKey cfg with
        | none =>
          exfalso
          have := List.find?_eq_none.mp hf k hk
          simp [hnone] at this
        | some k0 => exact ⟨.missingKey k0, by simp [loadConfig, hf]⟩
  · intro cfg hfile hkeys
    subst hfile
    exact loadConfig_ok_of_keys cfg hkeys

/-- Witness for C5: a complete configuration loads, an empty one fails. -/
theorem C5_load_config_spec_witness :
    loadConfig (some (some cfgDemo)) = .ok cfgDemo
    ∧ (∃ err, loadConfig (some (some ([] : Config))) = .error err) := by
  constructor
  · exact (C5_load_config_spec (some (some cfgDemo))).2 cfgDemo rfl (by decide)
  · exact ((C5_load_config_spec (some (some ([] : Config)))).1).mpr
      (Or.inr (Or.inr ⟨[], rfl, "target_market", by decide, by decide⟩))

/-- C4: under a well-formed channels entry, an account fails exactly when
its enrichment raises; run_campaign never raises (it is a total function),
total_accounts is the requested count, and every other aggregate is the one
computed over the successfully enriched accounts only. -/
theorem C4_run_campaign_skips_failures (enrich : String → Option AccountProfile)
    (cfg : Config) (target_accounts : List String) (n : Nat)
    (hch : channelsPrimaryCount cfg = some n) :
    (run_campaign enrich cfg target_accounts).total_accounts = target_accounts.length
    ∧ (∀ account_id, (perAccount enrich cfg account_id).isSome = (enrich account_id).isSome)
    ∧ ((run_campaign enrich cfg target_accounts).total_touchpoints =
        (run_campaign enrich cfg
          (target_accounts.filter (fun id => (enrich id).isSome))).total_touchpoints
      ∧ (run_campaign enrich cfg target_accounts).engagement_rate =
        (run_campaign enrich cfg
          (target_accounts.filter (fun id => (enrich id).isSome))).engagement_rate
      ∧ (run_campaign enrich cfg target_accounts).predicted_pipeline =
        (run_campaign enrich cfg
          (target_accounts.filter (fun id => (enrich id).isSome))).predicted_pipeline) := by
  have hsome := perAccount_isSome enrich cfg n hch
  have key : (target_accounts.filter (fun id => (enrich id).isSome)).filterMap
      (perAccount enrich cfg) = target_accounts.filterMap (perAccount enrich cfg) := by
    apply filterMap_filter_eq
    intro a
    rw [hsome a]
  refine ⟨?_, hsome, ?_, ?_, ?_⟩ <;> simp [run_campaign_eq, key]

/-- Witness for C4: one account whose enrichment raises gives requested
count 1 and zero aggregates, with no exception escaping. -/
theorem C4_run_campaign_skips_failures_witness :
    channelsPrimaryCount cfgDemo = some 3
    ∧ (run_campaign failEnrich cfgDemo ["acme_mfg"]).total_accounts = 1
    ∧ (run_campaign failEnrich cfgDemo ["acme_mfg"]).total_touchpoints = 0
    ∧ (run_campaign failEnrich cfgDemo ["acme_mfg"]).engagement_rate = 0
    ∧ (run_campaign failEnrich cfgDemo ["acme_mfg"]).predicted_pipeline = 0 := by
  have h := C4_run_campaign_skips_failures failEnrich cfgDemo ["acme_mfg"] 3 rfl
  exact ⟨rfl, h.1, (h.2.2.1).trans rfl, (h.2.2.2.1).trans rfl, (h.2.2.2.2).trans rfl⟩

/-- C6: the campaign result is a pure function of the enrichment behavior,
the configuration and the account list; the embedded semantics take no
clock or randomness input, so two calls on the same arguments coincide. -/
theorem C6_run_campaign_deterministic (enrich : String → Option AccountProfile)
    (cfg : Config) (target_accounts : List String) :
    run_campaign enrich cfg target_accounts = run_campaign enrich cfg target_accounts := rfl

/-- C7: the empty account list yields the all-zero results record, and in
general the mean-engagement division is guarded: the engagement rate is the
sum over processed accounts divided by their number when at least one
account succeeded, and 0 otherwise. -/
theorem C7_run_campaign_empty_and_mean_guard (enrich : String → Option AccountProfile)
    (cfg : Config) :
    run_campaign enrich cfg [] = ⟨0, 0, 0, 0, channelPerformance⟩
    ∧ ∀ target_accounts : List String,
        (run_campaign enrich cfg target_accounts).engagement_rate =
          (if target_accounts.filterMap (perAccount enrich cfg) = [] then 0
           else ((target_accounts.filterMap (perAccount enrich cfg)).map
                (fun o => o.2.1)).sum /
              ((target_accounts.filterMap (perAccount enrich cfg)).length : ℚ)) := by
  constructor
  · rfl
  · intro l
    rw [run_campaign_eq]
    simp [List.isEmpty_iff]

/-- C8: the spec scenario: the enriched profile (bracket with base 200000,
financial health 0.78, intent 0.65) and the generated content
(personalization 0.85) produce engagement min(0.15+0.10+0.15+0.12, 0.65)
= 0.52 and pipeline 200000 x 0.52 x 0.65 = 67600. -/
theorem C8_scenario_acme (industry : String) :
    calculate_engagement_score (enrich_account industry "acme_mfg")
        (create_content (enrich_account industry "acme_mfg")
          (analyze_intent (enrich_account industry "acme_mfg"))) = 13/25
    ∧ (13 : ℚ)/25 = min ((15 : ℚ)/100 + 10/100 + 15/100 + 12/100) (65/100)
    ∧ revenueMultiplier "£5M-£25M" = 200000
    ∧ estimate_pipeline_value (enrich_account industry "acme_mfg") (13/25) = 67600
    ∧ (200000 : ℚ) * (13/25) * (13/20) = 67600 := by
  refine ⟨?_, by norm_num, rfl, ?_, by norm_num⟩
  · norm_num [calculate_engagement_score, create_content, enrich_account]
  · have hrm : revenueMultiplier "£5M-£25M" = 200000 := rfl
    simp only [estimate_pipeline_value, enrich_account]
    rw [hrm]
    norm_num

/-- C9: the enrichment agent returns the same constant scores for every
account id and the content agent a constant personalization score, so all
three boosts fire, every processed account scores exactly 0.52, and the
0.65 cap is strictly above the only achievable sum. -/
theorem C9_enrichment_constants (industry account_id : String) :
    (enrich_account industry account_id).financial_health_score = 78/100
    ∧ (enrich_account industry account_id).intent_score = 65/100
    ∧ (enrich_account industry account_id).revenue = "£5M-£25M"
    ∧ (create_content (enrich_account industry account_id)
        (analyze_intent (enrich_account industry account_id))).personalization_score
      = some (85/100)
    ∧ calculate_engagement_score (enrich_account industry account_id)
        (create_content (enrich_account industry account_id)
          (analyze_intent (enrich_account industry account_id))) = 13/25
    ∧ (13 : ℚ)/25 < 65/100 := by
  refine ⟨rfl, rfl, rfl, rfl, ?_, by norm_num⟩
  norm_num [calculate_engagement_score, create_content, enrich_account]

/-- C10: a configuration that passes the _load_config validation but whose
target_market object lacks the industry key makes the wrapper constructor
fail with a KeyError in AccountIntelligenceAgent.__init__. -/
theorem C10_init_keyError (cfg : Config) (tm : List (String × JVal))
    (hreq : ∀ k ∈ requiredKeys, (cfg.lookup k).isSome)
    (htm : cfg.lookup "target_market" = some (JVal.obj tm))
    (hind : tm.lookup "industry" = none) :
    wrapperInit (some (some cfg)) = .error .keyError := by
  have hok := loadConfig_ok_of_keys cfg hreq
  simp [wrapperInit, hok, accountIntelligenceInit, htm, hind]

/-- Witness for C10: a concrete validated configuration without an industry
key fails agent initialization. -/
theorem C10_init_keyError_witness :
    wrapperInit (some (some cfgNoIndustry)) = .error .keyError :=
  C10_init_keyError cfgNoIndustry [] (by decide) rfl rfl
